import Mathlib

/-!
Shallow Lean embedding of the `theme_builder` program (Python sources
`src/main.py`, `src/theme_builder/colors/extractor.py`,
`src/theme_builder/config/manager.py`,
`src/theme_builder/templates/renderer.py`,
`src/theme_builder/utils/helpers.py`), together with theorems checking the
specification claims against the embedded code.
-/

namespace ThemeBuilder

/-! ## Python string and path model -/

/-- ASCII lowercasing of one character, as Python `str.lower` acts on the
ASCII range (the file extensions the program compares are ASCII). -/
def asciiLowerChar (c : Char) : Char :=
  if 'A' ≤ c ∧ c ≤ 'Z' then Char.ofNat (c.toNat + 32) else c

/-- Python `str.lower` restricted to ASCII strings. -/
def asciiLower (s : String) : String := ⟨s.data.map asciiLowerChar⟩

/-- Characters of the last path component (`pathlib.PurePath.name`):
everything after the last slash, trailing slashes ignored. -/
def pyNameL (l : List Char) : List Char :=
  ((l.reverse.dropWhile (fun c => c = '/')).reverse).foldl
    (fun acc c => if c = '/' then [] else acc ++ [c]) []

/-- Index of the last `'.'` of a path component, as CPython's
`name.rfind('.')` computes it (`none` when there is no dot). -/
def rfindDot (n : List Char) : Option Nat :=
  (n.reverse.findIdx? (fun c => c = '.')).map (fun j => n.length - 1 - j)

/-- The `(stem, suffix)` split of a path component, as `pathlib` computes it:
the suffix starts at the last dot when that dot is neither the first nor the
last character of the component, and is empty otherwise. -/
def stemSplit (n : List Char) : List Char × List Char :=
  match rfindDot n with
  | some i => if 0 < i ∧ i < n.length - 1 then (n.take i, n.drop i) else (n, [])
  | none => (n, [])

/-- `pathlib.Path(s).name`. -/
def pyName (s : String) : String := ⟨pyNameL s.data⟩

/-- `pathlib.Path(s).stem`. -/
def pyStem (s : String) : String := ⟨(stemSplit (pyNameL s.data)).1⟩

/-- `pathlib.Path(s).suffix`. -/
def pySuffix (s : String) : String := ⟨(stemSplit (pyNameL s.data)).2⟩

theorem stemSplit_append (n : List Char) : (stemSplit n).1 ++ (stemSplit n).2 = n := by
  unfold stemSplit
  cases rfindDot n with
  | none => simp
  | some i =>
    by_cases h : 0 < i ∧ i < n.length - 1
    · simp [h, List.take_append_drop]
    · simp [h]

/-! ## Hex formatting -/

/-- The uppercase hex digit alphabet. -/
def hexDigits : List Char := "0123456789ABCDEF".data

/-- Hex digit character for a value below 16 (the only use sites), as the
`"{:02X}"` format specifier picks it. -/
def hexDigitChar (d : Nat) : Char := hexDigits.getD d '*'

/-- The two zero-padded uppercase hex digits of a pre-validated byte, i.e.
what `"{:02X}".format(n)` yields for `n` in `[0, 255]`. -/
def hexByteL (n : Nat) : List Char := [hexDigitChar (n / 16), hexDigitChar (n % 16)]

/-- `hexByteL` as a string. -/
def hexByte (n : Nat) : String := ⟨hexByteL n⟩

/-- `"#{:02X}{:02X}{:02X}".format(r, g, b)` from `convert_to_hex`. -/
def hexRGB (r g b : Nat) : String := ⟨'#' :: (hexByteL r ++ hexByteL g ++ hexByteL b)⟩

/-- `f"#{r:02X}{g:02X}{b:02X}{a:02X}"` from `convert_to_rgba`. -/
def rgbaStr (r g b a : Nat) : String :=
  ⟨'#' :: (hexByteL r ++ hexByteL g ++ hexByteL b ++ hexByteL a)⟩

/-- Value of a hex digit character, as `int(s, 16)` assigns it (characters
outside the hex alphabet would raise in Python; they map to 0 here and never
occur on the strings the program parses). -/
def hexVal (c : Char) : Nat :=
  if '0' ≤ c ∧ c ≤ '9' then c.toNat - 48
  else if 'A' ≤ c ∧ c ≤ 'F' then c.toNat - 55
  else if 'a' ≤ c ∧ c ≤ 'f' then c.toNat - 87
  else 0

/-- `int(two-character slice, 16)`, as `print_palette_colors` parses one
channel back from a hex string. -/
def hexPairVal (c1 c2 : Char) : Nat := 16 * hexVal c1 + hexVal c2

/-- The RGB triple decoded from positions 1..6 of a `"#RRGGBB..."` string:
exactly the parse `print_palette_colors` performs with the slices `hx[1:3]`,
`hx[3:5]`, `hx[5:7]` (characters beyond position 6 are ignored, as Python
slicing ignores them). -/
def decodeHex (s : String) : Nat × Nat × Nat :=
  match s.data with
  | '#' :: c1 :: c2 :: c3 :: c4 :: c5 :: c6 :: _ =>
    (hexPairVal c1 c2, hexPairVal c3 c4, hexPairVal c5 c6)
  | _ => (0, 0, 0)

theorem hexVal_hexDigitChar : ∀ d, d < 16 → hexVal (hexDigitChar d) = d := by decide

theorem hexPair_round (n : Nat) (h : n < 256) :
    hexPairVal (hexDigitChar (n / 16)) (hexDigitChar (n % 16)) = n := by
  have h1 : n / 16 < 16 := by omega
  have h2 : n % 16 < 16 := Nat.mod_lt _ (by omega)
  rw [hexPairVal, hexVal_hexDigitChar _ h1, hexVal_hexDigitChar _ h2]
  omega

theorem decodeHex_hexRGB_append (r g b : Nat) (t : String) :
    decodeHex (hexRGB r g b ++ t) = decodeHex (hexRGB r g b) := rfl

theorem decodeHex_hexRGB (r g b : Nat) (hr : r < 256) (hg : g < 256) (hb : b < 256) :
    decodeHex (hexRGB r g b) = (r, g, b) := by
  show (hexPairVal (hexDigitChar (r / 16)) (hexDigitChar (r % 16)),
        hexPairVal (hexDigitChar (g / 16)) (hexDigitChar (g % 16)),
        hexPairVal (hexDigitChar (b / 16)) (hexDigitChar (b % 16))) = (r, g, b)
  rw [hexPair_round r hr, hexPair_round g hg, hexPair_round b hb]

theorem hexRGB_take7 (r g b : Nat) (t : String) :
    (hexRGB r g b ++ t).data.take 7 = (hexRGB r g b).data := rfl

theorem hexRGB_length (r g b : Nat) : (hexRGB r g b).length = 7 := rfl

theorem rgbaStr_eq_append (r g b a : Nat) : rgbaStr r g b a = hexRGB r g b ++ hexByte a := rfl

/-! ## Palette entries and the color formatters
(`src/theme_builder/colors/extractor.py`; `src/main.py` holds a line-for-line
copy of the same three functions) -/

/-- A channel value inside a palette entry: a Python `int`, or any other
value (`cother`), which fails the `isinstance(val, int)` check. -/
inductive Chan where
  | cint (n : Int)
  | cother
deriving DecidableEq

/-- One element of the palette list handed to the color formatters: a tuple,
a list, or a non-sequence value such as a bare int (`atom`). ColorThief
itself produces 3-tuples of ints; the formatters re-validate defensively. -/
inductive Entry where
  | tup (l : List Chan)
  | lst (l : List Chan)
  | atom
deriving DecidableEq

/-- `isinstance(val, int) and 0 <= val <= 255` for one channel. -/
def chanOk : Chan → Bool
  | .cint n => decide (0 ≤ n ∧ n ≤ 255)
  | .cother => false

/-- The numeric value of a channel (0 for non-int values, which only ever
appear behind a failed `chanOk` check). -/
def chanNat : Chan → Nat
  | .cint n => n.toNat
  | .cother => 0

/-- The Python exception classes the color formatters can raise. -/
inductive PyErr where
  | valueErr (msg : String)
  | typeErr
deriving DecidableEq

/-- `Except.ok`-ness of a result, i.e. "the Python call returned rather than
raised". -/
def exceptOk : Except PyErr (List String) → Bool
  | .ok _ => true
  | .error _ => false

/-- Body of the `for i, rgb in enumerate(input_list)` loop of
`convert_to_hex` (extractor.py lines 53-63), `i` being the index of the head
of the remaining list. The Python messages additionally interpolate
`repr(rgb)`, which the abstract channel values cannot render; the index,
which the validation order determines, is kept. -/
def convert_to_hex_go (i : Nat) : List Entry → Except PyErr (List String)
  | [] => .ok []
  | e :: rest =>
    match e with
    | .atom => .error (.valueErr ("Invalid RGB value at index " ++ toString i))
    | .tup l | .lst l =>
      match l with
      | [c1, c2, c3] =>
        if chanOk c1 && chanOk c2 && chanOk c3 then
          (convert_to_hex_go (i + 1) rest).map
            (fun out => hexRGB (chanNat c1) (chanNat c2) (chanNat c3) :: out)
        else .error (.valueErr ("RGB values must be integers 0-255 at index " ++ toString i))
      | _ => .error (.valueErr ("Invalid RGB value at index " ++ toString i))

/-- `convert_to_hex` (extractor.py lines 48-65). -/
def convert_to_hex (input_list : List Entry) : Except PyErr (List String) :=
  if input_list.isEmpty then .error (.valueErr "Color palette is empty")
  else convert_to_hex_go 0 input_list

/-- Python `int(alpha * 255)`: the exact product is
`alpha.num * 255 / alpha.den`, and `int()` truncates toward zero, which is
`Int.tdiv`. -/
def pyAlphaByte (alpha : ℚ) : Int := (alpha.num * 255).tdiv (alpha.den : Int)

/-- Body of the `for i, (r, g, b) in enumerate(rgb_list)` loop of
`convert_to_rgba` (extractor.py lines 77-81). Tuple unpacking drives the
failure mode for malformed entries: a non-sequence element raises
`TypeError`, a sequence of the wrong length raises the generic unpacking
`ValueError` (whose Python message differs from the abbreviation used here),
and only the channel check raises the validation message. -/
def convert_to_rgba_go (aByte : Nat) (i : Nat) : List Entry → Except PyErr (List String)
  | [] => .ok []
  | e :: rest =>
    match e with
    | .atom => .error .typeErr
    | .tup l | .lst l =>
      match l with
      | [c1, c2, c3] =>
        if chanOk c1 && chanOk c2 && chanOk c3 then
          (convert_to_rgba_go aByte (i + 1) rest).map
            (fun out => rgbaStr (chanNat c1) (chanNat c2) (chanNat c3) aByte :: out)
        else .error (.valueErr ("RGB values must be integers 0-255 at index " ++ toString i))
      | _ => .error (.valueErr "cannot unpack palette entry into (r, g, b)")

/-- `convert_to_rgba` (extractor.py lines 68-83). The Python alpha error
message additionally interpolates `repr(alpha)`. -/
def convert_to_rgba (rgb_list : List Entry) (alpha : ℚ) : Except PyErr (List String) :=
  if rgb_list.isEmpty then .error (.valueErr "Color palette is empty")
  else
    let a := pyAlphaByte alpha
    if 0 ≤ a ∧ a ≤ 255 then convert_to_rgba_go a.toNat 0 rgb_list
    else .error (.valueErr "Invalid alpha value")

/-- An entry that passes `convert_to_hex`'s validation: a 3-element tuple or
list of ints in `[0, 255]`. -/
def entryValid : Entry → Bool
  | .tup [c1, c2, c3] | .lst [c1, c2, c3] => chanOk c1 && chanOk c2 && chanOk c3
  | _ => false

/-- An entry that is a Python sequence (tuple or list) of any length. -/
def isSeq : Entry → Bool
  | .tup _ | .lst _ => true
  | .atom => false

/-- The channel triple of a valid entry. -/
def entryRGB : Entry → Nat × Nat × Nat
  | .tup [c1, c2, c3] | .lst [c1, c2, c3] => (chanNat c1, chanNat c2, chanNat c3)
  | _ => (0, 0, 0)

/-- The hex string `convert_to_hex` produces for one valid entry. -/
def hexOfEntry (e : Entry) : String :=
  hexRGB (entryRGB e).1 (entryRGB e).2.1 (entryRGB e).2.2

theorem exceptOk_map (r : Except PyErr (List String)) (f : List String → List String) :
    exceptOk (r.map f) = exceptOk r := by cases r <;> rfl

theorem chanNat_lt (c : Chan) (h : chanOk c = true) : chanNat c < 256 := by
  cases c with
  | cint n =>
    simp only [chanOk, decide_eq_true_eq] at h
    simp only [chanNat]
    omega
  | cother => simp [chanOk] at h

theorem convert_to_hex_go_ok (p : List Entry) (hv : ∀ e ∈ p, entryValid e = true) (i : Nat) :
    convert_to_hex_go i p = .ok (p.map hexOfEntry) := by
  induction p generalizing i with
  | nil => rfl
  | cons e rest ih =>
    have he : entryValid e = true := hv e (List.mem_cons_self e rest)
    have hrest : ∀ x ∈ rest, entryValid x = true := fun x hx => hv x (List.mem_cons_of_mem _ hx)
    cases e with
    | atom => exact absurd he (by simp [entryValid])
    | tup l =>
      rcases l with _ | ⟨c1, _ | ⟨c2, _ | ⟨c3, _ | ⟨c4, l'⟩⟩⟩⟩ <;>
        simp only [entryValid] at he
      all_goals try exact absurd he (by decide)
      simp [convert_to_hex_go, he, ih hrest, Except.map, hexOfEntry, entryRGB]
    | lst l =>
      rcases l with _ | ⟨c1, _ | ⟨c2, _ | ⟨c3, _ | ⟨c4, l'⟩⟩⟩⟩ <;>
        simp only [entryValid] at he
      all_goals try exact absurd he (by decide)
      simp [convert_to_hex_go, he, ih hrest, Except.map, hexOfEntry, entryRGB]

theorem convert_to_rgba_go_ok (p : List Entry) (hv : ∀ e ∈ p, entryValid e = true)
    (i : Nat) (a : Nat) :
    convert_to_rgba_go a i p = .ok (p.map (fun e => hexOfEntry e ++ hexByte a)) := by
  induction p generalizing i with
  | nil => rfl
  | cons e rest ih =>
    have he : entryValid e = true := hv e (List.mem_cons_self e rest)
    have hrest : ∀ x ∈ rest, entryValid x = true := fun x hx => hv x (List.mem_cons_of_mem _ hx)
    cases e with
    | atom => exact absurd he (by simp [entryValid])
    | tup l =>
      rcases l with _ | ⟨c1, _ | ⟨c2, _ | ⟨c3, _ | ⟨c4, l'⟩⟩⟩⟩ <;>
        simp only [entryValid] at he
      all_goals try exact absurd he (by decide)
      simp [convert_to_rgba_go, he, ih hrest, Except.map, hexOfEntry, entryRGB,
        rgbaStr_eq_append]
    | lst l =>
      rcases l with _ | ⟨c1, _ | ⟨c2, _ | ⟨c3, _ | ⟨c4, l'⟩⟩⟩⟩ <;>
        simp only [entryValid] at he
      all_goals try exact absurd he (by decide)
      simp [convert_to_rgba_go, he, ih hrest, Except.map, hexOfEntry, entryRGB,
        rgbaStr_eq_append]

theorem go_isOk_eq (p : List Entry) (hs : ∀ e ∈ p, isSeq e = true) (i a : Nat) :
    exceptOk (convert_to_rgba_go a i p) = exceptOk (convert_to_hex_go i p) := by
  induction p generalizing i with
  | nil => rfl
  | cons e rest ih =>
    have he : isSeq e = true := hs e (List.mem_cons_self e rest)
    have hrest : ∀ x ∈ rest, isSeq x = true := fun x hx => hs x (List.mem_cons_of_mem _ hx)
    cases e with
    | atom => exact absurd he (by simp [isSeq])
    | tup l =>
      rcases l with _ | ⟨c1, _ | ⟨c2, _ | ⟨c3, _ | ⟨c4, l'⟩⟩⟩⟩ <;>
        simp only [convert_to_hex_go, convert_to_rgba_go]
      · rfl
      · rfl
      · rfl
      · by_cases hc : (chanOk c1 && chanOk c2 && chanOk c3) = true
        · simp [hc, exceptOk_map, ih hrest]
        · simp only [Bool.not_eq_true] at hc
          simp [hc]
      · rfl
    | lst l =>
      rcases l with _ | ⟨c1, _ | ⟨c2, _ | ⟨c3, _ | ⟨c4, l'⟩⟩⟩⟩ <;>
        simp only [convert_to_hex_go, convert_to_rgba_go]
      · rfl
      · rfl
      · rfl
      · by_cases hc : (chanOk c1 && chanOk c2 && chanOk c3) = true
        · simp [hc, exceptOk_map, ih hrest]
        · simp only [Bool.not_eq_true] at hc
          simp [hc]
      · rfl

theorem pyAlphaByte_eq_floor (alpha : ℚ) (h : 0 ≤ alpha) :
    pyAlphaByte alpha = ⌊alpha * 255⌋ := by
  have hq : alpha * 255 = ((alpha.num * 255 : ℤ) : ℚ) / ((alpha.den : ℕ) : ℚ) := by
    conv_lhs => rw [← Rat.num_div_den alpha]
    push_cast
    ring
  rw [pyAlphaByte, hq, Rat.floor_intCast_div_natCast]
  exact Int.tdiv_eq_ediv (by positivity) (Int.ofNat_nonneg _)

theorem pyAlphaByte_bounds (alpha : ℚ) (h0 : 0 ≤ alpha) (h1 : alpha ≤ 1) :
    0 ≤ pyAlphaByte alpha ∧ pyAlphaByte alpha ≤ 255 := by
  rw [pyAlphaByte_eq_floor alpha h0]
  refine ⟨Int.floor_nonneg.mpr (by positivity), ?_⟩
  have h255 : alpha * 255 ≤ 255 := by nlinarith
  have : (⌊alpha * 255⌋ : ℚ) ≤ 255 := le_trans (Int.floor_le _) h255
  exact_mod_cast this

/-! ## Extraction wrapper and the image-processing phase of `main`
(`src/theme_builder/colors/extractor.py` lines 12-45 and `src/main.py`
lines 145-178, 280-327) -/

/-- The `supported_formats` set of `get_colors` / `extract_colors`. -/
def supported_formats : List String := [".jpg", ".jpeg", ".png", ".bmp", ".gif", ".webp"]

/-- The filesystem facts about the CLI image argument that the program
consults: `Path.exists()`, `Path.is_file()`; suffix and stem are computed
from the path itself. -/
structure ImageInfo where
  path : String
  pathExists : Bool
  isFile : Bool
deriving DecidableEq

/-- `get_colors` (main.py lines 145-178) = `extract_colors` (extractor.py
lines 12-45). The ColorThief collaborator is abstracted by `collabPalette`,
the value `thief.get_palette(color_count=count, quality=quality)` returns;
`quality` and `count` are passed through to it and not otherwise consulted.
Errors carry the `sys.exit` message. -/
def get_colors (img : ImageInfo) (quality count : Nat)
    (collabPalette : List (Nat × Nat × Nat)) : Except String (List (Nat × Nat × Nat)) :=
  if !img.pathExists then .error ("Error: Image file not found: " ++ img.path)
  else if !img.isFile then .error ("Error: Path is not a file: " ++ img.path)
  else if !(supported_formats.contains (asciiLower (pySuffix img.path))) then
    .error ("Error: Unsupported image format: " ++ pySuffix img.path ++
      " (supported: .bmp, .gif, .jpeg, .jpg, .png, .webp)")
  else if collabPalette.isEmpty then
    .error "Error: Color extraction failed - no colors found in image"
  else .ok collabPalette

/-- ColorThief palette entries are 3-tuples of ints. -/
def entryOfTriple (t : Nat × Nat × Nat) : Entry :=
  .tup [.cint t.1, .cint t.2.1, .cint t.2.2]

/-- Outcome of the image-processing phase of `main`, tracking whether the
per-image output directory `Path(img_path.stem)` has been created yet. -/
inductive PhaseResult where
  | exited (msg : String) (outDirCreated : Bool)
  | ready (hex rgba : List String) (outDir : String)
deriving DecidableEq

/-- How `main` surfaces a formatter exception: `ValueError` is caught by the
`except ValueError` around the conversions (main.py lines 301-305); a
`TypeError` escapes to the outer generic handler (line 365). -/
def convErrExit : PyErr → String
  | .valueErr m => "Error in color conversion: " ++ m
  | .typeErr => "Unexpected error"

/-- `main` from the argument check through the template-directory check
(main.py lines 292-327): image existence check, `get_colors`, the two
conversions, `out_path.mkdir` (its success abstracted by `mkdirOk`),
`check_disk_space` (`diskOk`), and the `TEMPLATE_DIR.exists()` check
(`templateDirExists`). Exits carry whether the per-image output directory
had been created by that point. -/
def mainImagePhase (img : ImageInfo) (quality count : Nat)
    (collabPalette : List (Nat × Nat × Nat)) (alpha : ℚ)
    (mkdirOk diskOk templateDirExists : Bool) : PhaseResult :=
  if !img.pathExists then .exited ("Error: Image file not found: " ++ img.path) false
  else
    match get_colors img quality count collabPalette with
    | .error m => .exited m false
    | .ok palette =>
      match convert_to_hex (palette.map entryOfTriple) with
      | .error e => .exited (convErrExit e) false
      | .ok hx =>
        match convert_to_rgba (palette.map entryOfTriple) alpha with
        | .error e => .exited (convErrExit e) false
        | .ok rg =>
          if !mkdirOk then
            .exited ("Error: Permission denied creating output directory: " ++
              pyStem img.path) false
          else if !diskOk then .exited "Error checking disk space" true
          else if !templateDirExists then .exited "Error: Template directory not found" true
          else .ready hx rg (pyStem img.path)

/-! ## Configuration model and `validate_config`
(`src/theme_builder/config/manager.py` lines 9-82; `src/main.py` lines 21-93
hold the same code) -/

/-- A TOML leaf value as `tomllib` materialises it in the Python dict: an
int, a bool (which passes `isinstance(-, int)` in Python), a string, an
array, or any other value abstracted to its truthiness. The `colors` and
`files` keys themselves are modelled as tables when present (a non-table
value for a whole section would make the `in` checks of `validate_config`
raise outside its aggregation and is not represented). -/
inductive Toml where
  | int (n : Int)
  | bool (b : Bool)
  | str (s : String)
  | list (l : List Toml)
  | other (truthy : Bool)

/-- Python `isinstance(v, int)` (true for `bool`, a subclass of `int`). -/
def pyIsInt : Toml → Bool
  | .int _ => true
  | .bool _ => true
  | _ => false

/-- Python `isinstance(v, list)`. -/
def pyIsList : Toml → Bool
  | .list _ => true
  | _ => false

/-- The integer a value compares as after `isinstance(v, int)` passed. -/
def pyIntVal : Toml → Int
  | .int n => n
  | .bool b => if b then 1 else 0
  | _ => 0

/-- The elements of a value known to be a list. -/
def tomlList : Toml → List Toml
  | .list l => l
  | _ => []

/-- Python truthiness of a TOML value. -/
def pyTruthy : Toml → Bool
  | .int n => decide (n ≠ 0)
  | .bool b => b
  | .str s => decide (s ≠ "")
  | .list l => !l.isEmpty
  | .other t => t

/-- The string `Path(v)` renders to for the values `final_dir` can carry
(a non-path-like type would raise `TypeError` in Python; such values are
never exercised here). -/
def pathStr : Toml → String
  | .str s => s
  | .int n => toString n
  | _ => ""

/-- The `[colors]` table as `validate_config` reads it. -/
structure ColorsSection where
  quality : Option Toml
  count : Option Toml

/-- The `[files]` table as `validate_config` reads it. -/
structure FilesSection where
  templates : Option Toml
  final_dir : Option Toml

/-- A parsed configuration document. -/
structure Config where
  colors : Option ColorsSection
  files : Option FilesSection

/-- Result of `validate_config`: the aggregated error list plus the
directories its `final_dir.mkdir(parents=True, exist_ok=True)` call created
as a side effect of validation. -/
structure ValidateResult where
  errors : List String
  createdDirs : List String

def msgColorsMissing : String := "Missing required [colors] section in config.toml"

def msgQualityMissing : String := "Missing required 'colors.quality' in config.toml"

def msgCountMissing : String := "Missing required 'colors.count' in config.toml"

def msgCountPositive : String := "Color count must be a positive integer"

def msgCountLarge : String := "Color count too large (max: 20)"

def msgQualityPositive : String := "Quality must be a positive integer"

def msgFilesMissing : String := "Missing required [files] section in config.toml"

def msgTemplatesMissing : String := "Missing required 'files.templates' in config.toml"

def msgTemplatesEmpty : String := "Templates list cannot be empty"

def cannotCreateMsg (d : String) : String := "Cannot create final directory: " ++ d

/-- The `[colors]` half of `validate_config` (manager.py lines 13-34):
the `required_color_fields` loop over `["quality", "count"]`, then the
count-value checks, then the quality-value check, appending messages in
execution order. -/
def colorsErrors : Option ColorsSection → List String
  | none => [msgColorsMissing]
  | some c =>
    (if c.quality.isNone then [msgQualityMissing] else []) ++
    (if c.count.isNone then [msgCountMissing] else []) ++
    (match c.count with
     | none => []
     | some v =>
       if !pyIsInt v || pyIntVal v ≤ 0 then [msgCountPositive]
       else if 20 < pyIntVal v then [msgCountLarge]
       else []) ++
    (match c.quality with
     | none => []
     | some v => if !pyIsInt v || pyIntVal v < 1 then [msgQualityPositive] else [])

/-- The `files.templates` checks of `validate_config` (manager.py lines
42-45): a missing key, then `not isinstance(-, list) or not templates`
reported as the empty-list message. -/
def templatesErrors : Option Toml → List String
  | none => [msgTemplatesMissing]
  | some v => if !pyIsList v || (tomlList v).isEmpty then [msgTemplatesEmpty] else []

/-- The `final_dir` check of `validate_config` (manager.py lines 47-54):
when the key is present and truthy and the directory does not exist, it is
created during validation; only a `PermissionError` turns into an error
message. Returns `(errors, createdDirs)`. `dirExists` and `creatable`
abstract the filesystem. -/
def finalDirCheck (fd : Option Toml) (dirExists creatable : String → Bool) :
    List String × List String :=
  match fd with
  | none => ([], [])
  | some v =>
    if pyTruthy v then
      if dirExists (pathStr v) then ([], [])
      else if creatable (pathStr v) then ([], [pathStr v])
      else ([cannotCreateMsg (pathStr v)], [])
    else ([], [])

/-- The `[files]` half of `validate_config` (manager.py lines 36-54). -/
def filesErrors (fi : Option FilesSection) (dirExists creatable : String → Bool) :
    List String × List String :=
  match fi with
  | none => ([msgFilesMissing], [])
  | some f =>
    let fd := finalDirCheck f.final_dir dirExists creatable
    (templatesErrors f.templates ++ fd.1, fd.2)

/-- `validate_config` (manager.py lines 9-56): all checks run and their
messages are concatenated in execution order, no early return. -/
def validate_config (conf : Config) (dirExists creatable : String → Bool) : ValidateResult :=
  let fe := filesErrors conf.files dirExists creatable
  ⟨colorsErrors conf.colors ++ fe.1, fe.2⟩

/-- `get_config` (manager.py lines 59-82) after a successful parse: any
non-empty error list aborts via `sys.exit`, with every message listed. -/
def get_config (conf : Config) (dirExists creatable : String → Bool) : Except (List String) Config :=
  let r := validate_config conf dirExists creatable
  if r.errors.isEmpty then .ok conf else .error r.errors

/-! ## Template loop and mirror step of `main`
(`src/main.py` lines 330-358) -/

/-- Result of the `for template_name in files_conf["templates"]` loop:
either every template was rendered and written, or the loop aborted on the
first template the Jinja2 environment could not resolve, with the files
written before that point. -/
inductive LoopResult where
  | done (written : List String)
  | abortedOn (template : String) (written : List String)
deriving DecidableEq

/-- The output files a loop outcome has written. -/
def writtenOf : LoopResult → List String
  | .done w => w
  | .abortedOn _ w => w

/-- The template loop of `main` (main.py lines 330-341): each template is
rendered (`render_template` exits on `TemplateNotFound`, abstracted by
`resolve`) and then written to `out_path / Path(template_name).name` by
`save_file`, one template at a time, in list order. -/
def templateLoop (resolve : String → Bool) (imgStem : String) :
    List String → LoopResult
  | [] => .done []
  | t :: rest =>
    if resolve t then
      match templateLoop resolve imgStem rest with
      | .done w => .done ((imgStem ++ "/" ++ pyName t) :: w)
      | .abortedOn b w => .abortedOn b ((imgStem ++ "/" ++ pyName t) :: w)
    else .abortedOn t []

/-- Outcome of the mirroring block of `main` (main.py lines 343-358). -/
inductive MirrorResult where
  | keyError (key : String)
  | skipped
  | mirrored (wallpaperDest : String) (treeDest : String) (merge : Bool)
deriving DecidableEq

/-- The mirroring block of `main` (main.py lines 343-358):
`if files_conf["final_dir"]:` raises `KeyError` when the key is absent
(caught only by the outer generic handler, which exits non-zero); a falsy
value skips the block; otherwise the source image is copied to
`out_path / ("wallpaper" + img_path.suffix)` and `out_path` is copied to
`Path(final_dir) / out_path` with `dirs_exist_ok=True` (merge semantics). -/
def mirrorStep (final_dir : Option Toml) (imgPath : String) : MirrorResult :=
  match final_dir with
  | none => .keyError "final_dir"
  | some v =>
    if pyTruthy v then
      .mirrored (pyStem imgPath ++ "/" ++ ("wallpaper" ++ pySuffix imgPath))
        (pathStr v ++ "/" ++ pyStem imgPath) true
    else .skipped

/-! ## Derived path facts -/

/-- `output_file = out_path / template_stem` with
`template_stem = Path(template_name).name` and `out_path = Path(img_path.stem)`
(main.py lines 311, 333-334). -/
def outputFile (imgPath templateName : String) : String :=
  pyStem imgPath ++ "/" ++ pyName templateName

theorem pyName_eq_stem_append_suffix (s : String) : pyName s = pyStem s ++ pySuffix s := by
  have h : (⟨(stemSplit (pyNameL s.data)).1⟩ : String) ++ ⟨(stemSplit (pyNameL s.data)).2⟩
      = ⟨(stemSplit (pyNameL s.data)).1 ++ (stemSplit (pyNameL s.data)).2⟩ := rfl
  show (⟨pyNameL s.data⟩ : String) =
    (⟨(stemSplit (pyNameL s.data)).1⟩ : String) ++ ⟨(stemSplit (pyNameL s.data)).2⟩
  rw [h, stemSplit_append]

/-! ## Claims -/

/-- Claim C10: for every template name in the configured list, the rendered
output is written at `<image-stem>/<basename of the template name>`, and the
template's own file extension is preserved in that basename (the basename is
the template's stem followed by its suffix), not stripped. -/
theorem claim10_output_keeps_extension (img t : String) :
    outputFile img t = pyStem img ++ "/" ++ (pyStem t ++ pySuffix t) := by
  rw [outputFile, pyName_eq_stem_append_suffix]

/-- A concrete existing, regular-file image used for evaluations. -/
def demoImage : ImageInfo := ⟨"photo.png", true, true⟩

/-- Claim C1 (counterexample): with a requested count of 5, the wrapper
returns a 1-element collaborator palette unmodified, so the returned length
differs from the requested count and no explicit failure occurs. -/
theorem claim1_counterexample :
    get_colors demoImage 10 5 [(1, 2, 3)] = .ok [(1, 2, 3)] ∧
    ([(1, 2, 3)] : List (Nat × Nat × Nat)).length ≠ 5 :=
  ⟨rfl, by decide⟩

/-- Claim C1 (amended): on a valid image path, the extraction wrapper
returns the collaborator's palette unmodified whenever it is non-empty —
whatever its length, which may differ from the requested count — and fails
explicitly exactly when the collaborator returns an empty palette. -/
theorem claim1_passthrough (img : ImageInfo) (quality count : Nat)
    (raw : List (Nat × Nat × Nat))
    (h1 : img.pathExists = true) (h2 : img.isFile = true)
    (h3 : supported_formats.contains (asciiLower (pySuffix img.path)) = true) :
    (raw ≠ [] → get_colors img quality count raw = .ok raw) ∧
    (raw = [] → get_colors img quality count raw =
      .error "Error: Color extraction failed - no colors found in image") := by
  have h3m : asciiLower (pySuffix img.path) ∈ supported_formats := by simpa using h3
  constructor
  · intro hne
    have hemp : raw.isEmpty = false := by
      cases raw with
      | nil => exact absurd rfl hne
      | cons a l => rfl
    simp [get_colors, h1, h2, h3m, hemp]
  · intro he
    subst he
    simp [get_colors, h1, h2, h3m]

theorem claim1_witness : get_colors demoImage 10 5 [(0, 0, 0)] = .ok [(0, 0, 0)] :=
  (claim1_passthrough demoImage 10 5 [(0, 0, 0)] rfl rfl rfl).1 (by decide)

/-- A resolver under which only `"a.css"` resolves. -/
def demoResolve : String → Bool := fun s => s == "a.css"

/-- Claim C3 (counterexample): with templates `["a.css", "b.css"]` of which
`"b.css"` does not resolve, the loop still writes `photo/a.css` before
aborting, so an unresolvable template in the list does not prevent the run
from rendering and writing earlier templates. -/
theorem claim3_counterexample :
    templateLoop demoResolve "photo" ["a.css", "b.css"] =
      .abortedOn "b.css" ["photo/a.css"] ∧
    demoResolve "b.css" = false ∧
    writtenOf (templateLoop demoResolve "photo" ["a.css", "b.css"]) ≠ [] := by
  refine ⟨by decide, by decide, by decide⟩

/-- Claim C3 (amended): template names are resolved lazily, one at a time in
list order: when the first unresolvable template is reached the run aborts
there, the templates before it having already been rendered and written (and
left on disk), and no template after it being processed. -/
theorem claim3_lazy_loop (resolve : String → Bool) (imgStem : String)
    (pre : List String) (bad : String) (post : List String)
    (hpre : ∀ t ∈ pre, resolve t = true) (hbad : resolve bad = false) :
    templateLoop resolve imgStem (pre ++ bad :: post) =
      .abortedOn bad (pre.map (fun t => imgStem ++ "/" ++ pyName t)) := by
  induction pre with
  | nil => simp [templateLoop, hbad]
  | cons t pre' ih =>
    have ht : resolve t = true := hpre t (List.mem_cons_self t pre')
    have h' : ∀ x ∈ pre', resolve x = true := fun x hx => hpre x (List.mem_cons_of_mem _ hx)
    simp [templateLoop, ht, ih h']

theorem claim3_witness :
    templateLoop demoResolve "photo" (["a.css"] ++ "b.css" :: []) =
      .abortedOn "b.css" (["a.css"].map (fun t => "photo" ++ "/" ++ pyName t)) :=
  claim3_lazy_loop demoResolve "photo" ["a.css"] "b.css" [] (by decide) (by decide)

/-- A configuration whose `[files]` table has templates but no `final_dir`
key: it passes `validate_config` (the key is optional there). -/
def confNoFinalDir : Config :=
  ⟨some ⟨some (.int 10), some (.int 6)⟩, some ⟨some (.list [.str "colors.css"]), none⟩⟩

/-- Claim C4: a configuration omitting `files.final_dir` is accepted by
`validate_config` with no errors and no directory created, yet the mirroring
block of `main` then raises `KeyError('final_dir')` instead of skipping and
completing; an empty value does skip the block; a set value copies the image
as `wallpaper` plus the original extension into the per-image directory and
merges that directory into `final_dir/<image-stem>` (`dirs_exist_ok=True`,
i.e. merge semantics that leave pre-existing destination files in place). -/
theorem claim4_mirror_behavior :
    (validate_config confNoFinalDir (fun _ => true) (fun _ => true)).errors = [] ∧
    (validate_config confNoFinalDir (fun _ => true) (fun _ => true)).createdDirs = [] ∧
    mirrorStep none "photo.png" = .keyError "final_dir" ∧
    mirrorStep (some (.str "")) "photo.png" = .skipped ∧
    mirrorStep (some (.str "/themes")) "photo.png" =
      .mirrored "photo/wallpaper.png" "/themes/photo" true := by
  refine ⟨rfl, rfl, rfl, by decide, by decide⟩

/-- Claim C8: for an existing regular file whose (case-insensitively
lowered) extension is not in the supported set, the image phase of `main`
exits with the message naming the offending extension, and the per-image
output directory has not been created. -/
theorem claim8_unsupported_extension (img : ImageInfo) (quality count : Nat)
    (raw : List (Nat × Nat × Nat)) (alpha : ℚ) (mk dk td : Bool)
    (h1 : img.pathExists = true) (h2 : img.isFile = true)
    (h3 : supported_formats.contains (asciiLower (pySuffix img.path)) = false) :
    mainImagePhase img quality count raw alpha mk dk td =
      .exited ("Error: Unsupported image format: " ++ pySuffix img.path ++
        " (supported: .bmp, .gif, .jpeg, .jpg, .png, .webp)") false := by
  have h3m : asciiLower (pySuffix img.path) ∉ supported_formats := by simpa using h3
  simp [mainImagePhase, get_colors, h1, h2, h3m]

/-- A concrete existing regular file with a `.txt` extension. -/
def demoTxtImage : ImageInfo := ⟨"notes.txt", true, true⟩

theorem claim8_witness :
    mainImagePhase demoTxtImage 10 6 [(1, 2, 3)] 1 true true true =
      .exited ("Error: Unsupported image format: " ++ pySuffix demoTxtImage.path ++
        " (supported: .bmp, .gif, .jpeg, .jpg, .png, .webp)") false :=
  claim8_unsupported_extension demoTxtImage 10 6 [(1, 2, 3)] 1 true true true rfl rfl
    (by decide)

theorem hexDigitChar_mem : ∀ d, d < 16 → hexDigitChar d ∈ hexDigits := by decide

theorem mem_hexByteL (n : Nat) (hn : n < 256) : ∀ ch ∈ hexByteL n, ch ∈ hexDigits := by
  intro ch hch
  have h1 : n / 16 < 16 := by omega
  have h2 : n % 16 < 16 := Nat.mod_lt _ (by omega)
  simp only [hexByteL, List.mem_cons, List.mem_singleton] at hch
  rcases hch with h | h | h
  · exact h ▸ hexDigitChar_mem _ h1
  · exact h ▸ hexDigitChar_mem _ h2
  · exact absurd h (List.not_mem_nil ch)

theorem entryRGB_lt (e : Entry) (h : entryValid e = true) :
    (entryRGB e).1 < 256 ∧ (entryRGB e).2.1 < 256 ∧ (entryRGB e).2.2 < 256 := by
  cases e with
  | atom => exact absurd h (by decide)
  | tup l =>
    rcases l with _ | ⟨c1, _ | ⟨c2, _ | ⟨c3, _ | ⟨c4, l'⟩⟩⟩⟩ <;>
      simp only [entryValid] at h
    all_goals try exact absurd h (by decide)
    simp only [Bool.and_eq_true] at h
    exact ⟨chanNat_lt c1 h.1.1, chanNat_lt c2 h.1.2, chanNat_lt c3 h.2⟩
  | lst l =>
    rcases l with _ | ⟨c1, _ | ⟨c2, _ | ⟨c3, _ | ⟨c4, l'⟩⟩⟩⟩ <;>
      simp only [entryValid] at h
    all_goals try exact absurd h (by decide)
    simp only [Bool.and_eq_true] at h
    exact ⟨chanNat_lt c1 h.1.1, chanNat_lt c2 h.1.2, chanNat_lt c3 h.2⟩

/-- Claim C7: `convert_to_hex` is a pure, deterministic, index-preserving
map over valid palettes: it succeeds with one string per entry, each string
being `'#'` followed by six characters drawn from the uppercase zero-padded
hex alphabet, and decoding the three two-digit groups recovers exactly the
entry's channel triple. -/
theorem claim7_hex_roundtrip (p : List Entry) (hne : p ≠ [])
    (hv : ∀ e ∈ p, entryValid e = true) :
    convert_to_hex p = .ok (p.map hexOfEntry) ∧
    ∀ e ∈ p, (hexOfEntry e).length = 7 ∧
      (hexOfEntry e).data.head? = some '#' ∧
      (∀ ch ∈ (hexOfEntry e).data.tail, ch ∈ hexDigits) ∧
      decodeHex (hexOfEntry e) = entryRGB e := by
  have hemp : p.isEmpty = false := by
    cases p with
    | nil => exact absurd rfl hne
    | cons a l => rfl
  refine ⟨?_, ?_⟩
  · rw [convert_to_hex, hemp]
    simp only [Bool.false_eq_true, if_false]
    exact convert_to_hex_go_ok p hv 0
  · intro e he
    obtain ⟨hr, hg, hb⟩ := entryRGB_lt e (hv e he)
    refine ⟨hexRGB_length _ _ _, rfl, ?_, decodeHex_hexRGB _ _ _ hr hg hb⟩
    intro ch hch
    have : (hexOfEntry e).data.tail =
        hexByteL (entryRGB e).1 ++ hexByteL (entryRGB e).2.1 ++ hexByteL (entryRGB e).2.2 := rfl
    rw [this] at hch
    simp only [List.mem_append] at hch
    rcases hch with (h | h) | h
    · exact mem_hexByteL _ hr ch h
    · exact mem_hexByteL _ hg ch h
    · exact mem_hexByteL _ hb ch h

/-- A concrete valid palette. -/
def demoPalette : List Entry := [Entry.tup [.cint 250, .cint 100, .cint 3]]

theorem claim7_witness : convert_to_hex demoPalette = .ok (demoPalette.map hexOfEntry) :=
  (claim7_hex_roundtrip demoPalette (by decide) (by decide)).1

/-- Claim C6: for a valid palette and alpha in `[0, 1]`, the RGBA strings
are exactly the hex strings with two extra hex digits appended, so the first
seven characters agree index by index and decode to the same RGB triple; the
appended byte is `floor(alpha*255)` — Python's `int()` truncation agrees
with the floor on this domain — with `alpha = 1` giving suffix `"FF"` and
`alpha = 0` giving suffix `"00"`. -/
theorem claim6_rgba_agrees_with_hex (p : List Entry) (alpha : ℚ) (hne : p ≠ [])
    (hv : ∀ e ∈ p, entryValid e = true) (h0 : 0 ≤ alpha) (h1 : alpha ≤ 1) :
    pyAlphaByte alpha = ⌊alpha * 255⌋ ∧
    convert_to_hex p = .ok (p.map hexOfEntry) ∧
    convert_to_rgba p alpha =
      .ok (p.map (fun e => hexOfEntry e ++ hexByte ⌊alpha * 255⌋.toNat)) ∧
    (∀ e ∈ p,
      decodeHex (hexOfEntry e ++ hexByte ⌊alpha * 255⌋.toNat) = decodeHex (hexOfEntry e) ∧
      (hexOfEntry e ++ hexByte ⌊alpha * 255⌋.toNat).data.take 7 = (hexOfEntry e).data) ∧
    (alpha = 1 → hexByte ⌊alpha * 255⌋.toNat = "FF") ∧
    (alpha = 0 → hexByte ⌊alpha * 255⌋.toNat = "00") := by
  have hfl := pyAlphaByte_eq_floor alpha h0
  have hb := pyAlphaByte_bounds alpha h0 h1
  have hemp : p.isEmpty = false := by
    cases p with
    | nil => exact absurd rfl hne
    | cons a l => rfl
  refine ⟨hfl, ?_, ?_, ?_, ?_, ?_⟩
  · rw [convert_to_hex, hemp]
    simp only [Bool.false_eq_true, if_false]
    exact convert_to_hex_go_ok p hv 0
  · rw [convert_to_rgba, hemp]
    simp only [Bool.false_eq_true, if_false]
    rw [if_pos hb, ← hfl]
    exact convert_to_rgba_go_ok p hv 0 (pyAlphaByte alpha).toNat
  · intro e he
    exact ⟨decodeHex_hexRGB_append _ _ _ _, hexRGB_take7 _ _ _ _⟩
  · intro h
    subst h
    have h255 : (⌊(1 : ℚ) * 255⌋ : Int) = 255 := by norm_num
    rw [h255]
    rfl
  · intro h
    subst h
    have h0' : (⌊(0 : ℚ) * 255⌋ : Int) = 0 := by norm_num
    rw [h0']
    rfl

theorem claim6_witness :
    convert_to_rgba demoPalette 1 =
      .ok (demoPalette.map (fun e => hexOfEntry e ++ hexByte ⌊(1 : ℚ) * 255⌋.toNat)) :=
  (claim6_rgba_agrees_with_hex demoPalette 1 (by decide) (by decide) (by norm_num)
    (by norm_num)).2.2.1

/-- Claim C5 (counterexample): a palette entry that is not a sequence (a
bare int) makes `convert_to_hex` raise the validation `ValueError`, but
makes `convert_to_rgba` raise a `TypeError` (unpacking a non-iterable), so
the two functions do not fail under exactly the same validation rules. -/
theorem claim5_counterexample :
    convert_to_hex [Entry.atom] = .error (.valueErr "Invalid RGB value at index 0") ∧
    convert_to_rgba [Entry.atom] 1 = .error .typeErr ∧
    PyErr.typeErr ≠ PyErr.valueErr "Invalid RGB value at index 0" := by
  refine ⟨rfl, rfl, by decide⟩

/-- Claim C5 (amended): the two converters agree on the empty-palette error;
`convert_to_rgba` additionally rejects an out-of-range computed alpha before
touching the entries; and on palettes whose entries are all sequences
(tuples or lists) with alpha in `[0, 1]`, `convert_to_rgba` succeeds exactly
when `convert_to_hex` succeeds. For malformed entries both fail, but not
with the same exception: a non-sequence entry raises `TypeError` from
`convert_to_rgba` and the validation `ValueError` from `convert_to_hex`. -/
theorem claim5_validation_parity (p : List Entry) (alpha : ℚ) :
    (p = [] → convert_to_hex p = .error (.valueErr "Color palette is empty") ∧
      convert_to_rgba p alpha = .error (.valueErr "Color palette is empty")) ∧
    (p ≠ [] → ¬(0 ≤ pyAlphaByte alpha ∧ pyAlphaByte alpha ≤ 255) →
      convert_to_rgba p alpha = .error (.valueErr "Invalid alpha value")) ∧
    ((∀ e ∈ p, isSeq e = true) → 0 ≤ alpha → alpha ≤ 1 →
      exceptOk (convert_to_rgba p alpha) = exceptOk (convert_to_hex p)) := by
  refine ⟨?_, ?_, ?_⟩
  · intro h
    subst h
    exact ⟨rfl, rfl⟩
  · intro hne ha
    have hemp : p.isEmpty = false := by
      cases p with
      | nil => exact absurd rfl hne
      | cons a l => rfl
    rw [convert_to_rgba, hemp]
    simp only [Bool.false_eq_true, if_false]
    rw [if_neg ha]
  · intro hs h0 h1
    cases p with
    | nil => rfl
    | cons e rest =>
      have hb := pyAlphaByte_bounds alpha h0 h1
      rw [convert_to_rgba, convert_to_hex]
      simp only [List.isEmpty_cons, Bool.false_eq_true, if_false]
      rw [if_pos hb]
      exact go_isOk_eq (e :: rest) hs 0 _

theorem claim5_witness :
    exceptOk (convert_to_rgba demoPalette 1) = exceptOk (convert_to_hex demoPalette) :=
  (claim5_validation_parity demoPalette 1).2.2 (by decide) (by norm_num) (by norm_num)

theorem mem_finalDirCheck_snd (fd : Option Toml) (de cr : String → Bool) (d : String)
    (hd : d ∈ (finalDirCheck fd de cr).2) :
    ∃ v, fd = some v ∧ pyTruthy v = true ∧ de (pathStr v) = false ∧
      cr (pathStr v) = true ∧ d = pathStr v := by
  cases fd with
  | none => simp [finalDirCheck] at hd
  | some v =>
    simp only [finalDirCheck] at hd
    split_ifs at hd with h1 h2 h3
    · exact absurd hd (List.not_mem_nil d)
    · refine ⟨v, rfl, h1, by simpa using h2, h3, ?_⟩
      simpa using hd
    · exact absurd hd (List.not_mem_nil d)
    · exact absurd hd (List.not_mem_nil d)

theorem filesErrors_snd (fi : Option FilesSection) (de cr : String → Bool) :
    (filesErrors fi de cr).2 =
      (match fi with
       | none => []
       | some f => (finalDirCheck f.final_dir de cr).2) := by
  cases fi <;> rfl

/-- A configuration missing `colors.count` whose `files.final_dir` names a
nonexistent but creatable directory. -/
def confC2 : Config :=
  ⟨some ⟨some (.int 10), none⟩,
   some ⟨some (.list [.str "colors.css"]), some (.str "/mnt/themes")⟩⟩

/-- Claim C2 (counterexample): on a configuration missing `colors.count`
whose `files.final_dir` points at a nonexistent creatable directory,
validation does report the missing key but also creates that directory
before the run aborts, so the abort is not free of filesystem
modification. -/
theorem claim2_counterexample :
    msgCountMissing ∈ (validate_config confC2 (fun _ => false) (fun _ => true)).errors ∧
    (validate_config confC2 (fun _ => false) (fun _ => true)).createdDirs = ["/mnt/themes"] ∧
    (validate_config confC2 (fun _ => false) (fun _ => true)).createdDirs ≠ [] := by
  refine ⟨by decide, by decide, by decide⟩

/-- Claim C2 (amended): a configuration missing `colors.count` aborts the
run with the message naming that specific key; during validation the only
possible filesystem modification is the creation of the configured
`files.final_dir` when it is set, truthy, nonexistent and creatable — with
no `final_dir` configured, validation touches nothing. -/
theorem claim2_abort_reports_key (conf : Config) (dirExists creatable : String → Bool)
    (c : ColorsSection) (hc : conf.colors = some c) (hcnt : c.count = none) :
    msgCountMissing ∈ (validate_config conf dirExists creatable).errors ∧
    (validate_config conf dirExists creatable).errors ≠ [] ∧
    (∀ d ∈ (validate_config conf dirExists creatable).createdDirs,
      ∃ f v, conf.files = some f ∧ f.final_dir = some v ∧ pyTruthy v = true ∧
        dirExists (pathStr v) = false ∧ creatable (pathStr v) = true ∧ d = pathStr v) := by
  have hmem : msgCountMissing ∈ (validate_config conf dirExists creatable).errors := by
    simp only [validate_config, List.mem_append]
    left
    rw [hc]
    simp [colorsErrors, hcnt]
  refine ⟨hmem, List.ne_nil_of_mem hmem, ?_⟩
  intro d hd
  simp only [validate_config] at hd
  rw [filesErrors_snd] at hd
  cases hf : conf.files with
  | none => rw [hf] at hd; exact absurd hd (List.not_mem_nil d)
  | some f =>
    rw [hf] at hd
    obtain ⟨v, hv, ht, hde, hcr, hdv⟩ := mem_finalDirCheck_snd f.final_dir _ _ d hd
    exact ⟨f, v, rfl, hv, ht, hde, hcr, hdv⟩

theorem claim2_witness :
    msgCountMissing ∈ (validate_config confC2 (fun _ => false) (fun _ => true)).errors :=
  (claim2_abort_reports_key confC2 (fun _ => false) (fun _ => true)
    ⟨some (.int 10), none⟩ rfl rfl).1

theorem mem_colorsErrors_iff (m : String) (co : Option ColorsSection) :
    m ∈ colorsErrors co ↔
      (co = none ∧ m = msgColorsMissing) ∨
      (∃ c, co = some c ∧
        ((c.quality = none ∧ m = msgQualityMissing) ∨
         (c.count = none ∧ m = msgCountMissing) ∨
         (∃ v, c.count = some v ∧ (pyIsInt v = false ∨ pyIntVal v ≤ 0) ∧
           m = msgCountPositive) ∨
         (∃ v, c.count = some v ∧ pyIsInt v = true ∧ 0 < pyIntVal v ∧
           20 < pyIntVal v ∧ m = msgCountLarge) ∨
         (∃ v, c.quality = some v ∧ (pyIsInt v = false ∨ pyIntVal v < 1) ∧
           m = msgQualityPositive))) := by
  cases co with
  | none => simp [colorsErrors]
  | some c =>
    rcases c with ⟨q, cnt⟩
    cases q with
    | none =>
      cases cnt with
      | none => simp [colorsErrors]
      | some v =>
        simp only [colorsErrors, List.mem_append, Option.isNone_none, Option.isNone_some,
          Bool.or_eq_true, Bool.not_eq_true', decide_eq_true_eq]
        by_cases h1 : pyIsInt v = false ∨ pyIntVal v ≤ 0
        · rcases h1 with hI | hle
          · simp [hI]
          · simp [hle, show ¬(0 < pyIntVal v) from by omega]
        · rw [not_or, Bool.not_eq_false, not_le] at h1
          obtain ⟨hI, hpos⟩ := h1
          by_cases h2 : 20 < pyIntVal v <;>
            simp [hI, hpos, h2, show ¬(pyIntVal v ≤ 0) from by omega]
    | some w =>
      cases cnt with
      | none =>
        simp only [colorsErrors, List.mem_append, Option.isNone_none, Option.isNone_some,
          Bool.or_eq_true, Bool.not_eq_true', decide_eq_true_eq]
        by_cases h3 : pyIsInt w = false ∨ pyIntVal w < 1 <;> simp [h3]
      | some v =>
        simp only [colorsErrors, List.mem_append, Option.isNone_none, Option.isNone_some,
          Bool.or_eq_true, Bool.not_eq_true', decide_eq_true_eq]
        by_cases h1 : pyIsInt v = false ∨ pyIntVal v ≤ 0
        · rcases h1 with hI | hle
          · by_cases h3 : pyIsInt w = false ∨ pyIntVal w < 1 <;> simp [hI, h3]
          · by_cases h3 : pyIsInt w = false ∨ pyIntVal w < 1 <;>
              simp [hle, h3, show ¬(0 < pyIntVal v) from by omega]
        · rw [not_or, Bool.not_eq_false, not_le] at h1
          obtain ⟨hI, hpos⟩ := h1
          by_cases h2 : 20 < pyIntVal v <;>
            by_cases h3 : pyIsInt w = false ∨ pyIntVal w < 1 <;>
            simp [hI, hpos, h2, h3, show ¬(pyIntVal v ≤ 0) from by omega]

theorem mem_filesErrors_iff (m : String) (fi : Option FilesSection) (de cr : String → Bool) :
    m ∈ (filesErrors fi de cr).1 ↔
      (fi = none ∧ m = msgFilesMissing) ∨
      (∃ f, fi = some f ∧
        ((f.templates = none ∧ m = msgTemplatesMissing) ∨
         (∃ v, f.templates = some v ∧ (pyIsList v = false ∨ tomlList v = []) ∧
           m = msgTemplatesEmpty) ∨
         (∃ v, f.final_dir = some v ∧ pyTruthy v = true ∧ de (pathStr v) = false ∧
           cr (pathStr v) = false ∧ m = cannotCreateMsg (pathStr v)))) := by
  cases fi with
  | none => simp [filesErrors]
  | some f =>
    rcases f with ⟨t, fd⟩
    cases t with
    | none =>
      cases fd with
      | none => simp [filesErrors, templatesErrors, finalDirCheck]
      | some v =>
        simp only [filesErrors, templatesErrors, finalDirCheck, List.mem_append,
          Bool.or_eq_true, Bool.not_eq_true', List.isEmpty_eq_true]
        by_cases h2 : pyTruthy v = true
        all_goals by_cases h3 : de (pathStr v) = true
        all_goals by_cases h4 : cr (pathStr v) = true
        all_goals try rw [Bool.not_eq_true] at h2
        all_goals try rw [Bool.not_eq_true] at h3
        all_goals try rw [Bool.not_eq_true] at h4
        all_goals simp [h2, h3, h4]
    | some w =>
      cases fd with
      | none =>
        simp only [filesErrors, templatesErrors, finalDirCheck, List.mem_append,
          Bool.or_eq_true, Bool.not_eq_true', List.isEmpty_eq_true]
        by_cases h1 : pyIsList w = false ∨ tomlList w = [] <;> simp [h1]
      | some v =>
        simp only [filesErrors, templatesErrors, finalDirCheck, List.mem_append,
          Bool.or_eq_true, Bool.not_eq_true', List.isEmpty_eq_true]
        by_cases h1 : pyIsList w = false ∨ tomlList w = []
        all_goals by_cases h2 : pyTruthy v = true
        all_goals by_cases h3 : de (pathStr v) = true
        all_goals by_cases h4 : cr (pathStr v) = true
        all_goals try rw [Bool.not_eq_true] at h2
        all_goals try rw [Bool.not_eq_true] at h3
        all_goals try rw [Bool.not_eq_true] at h4
        all_goals simp [h1, h2, h3, h4]

/-- Claim C9: configuration validation is exhaustive, not first-error: a
message is in `validate_config`'s output exactly when the corresponding
violation is present in the document (missing `[colors]`/`[files]` section,
missing `quality`/`count`/`templates` key, non-positive or non-int or
too-large `count`, non-positive or non-int `quality`, non-list or empty
`templates`, or an uncreatable `final_dir`), so several independent
violations are all reported together; any non-empty list makes `get_config`
abort with the whole list. -/
theorem claim9_exhaustive_validation (conf : Config) (de cr : String → Bool) :
    (∀ m, m ∈ (validate_config conf de cr).errors ↔
      (((conf.colors = none ∧ m = msgColorsMissing) ∨
        (∃ c, conf.colors = some c ∧
          ((c.quality = none ∧ m = msgQualityMissing) ∨
           (c.count = none ∧ m = msgCountMissing) ∨
           (∃ v, c.count = some v ∧ (pyIsInt v = false ∨ pyIntVal v ≤ 0) ∧
             m = msgCountPositive) ∨
           (∃ v, c.count = some v ∧ pyIsInt v = true ∧ 0 < pyIntVal v ∧
             20 < pyIntVal v ∧ m = msgCountLarge) ∨
           (∃ v, c.quality = some v ∧ (pyIsInt v = false ∨ pyIntVal v < 1) ∧
             m = msgQualityPositive)))) ∨
       ((conf.files = none ∧ m = msgFilesMissing) ∨
        (∃ f, conf.files = some f ∧
          ((f.templates = none ∧ m = msgTemplatesMissing) ∨
           (∃ v, f.templates = some v ∧ (pyIsList v = false ∨ tomlList v = []) ∧
             m = msgTemplatesEmpty) ∨
           (∃ v, f.final_dir = some v ∧ pyTruthy v = true ∧ de (pathStr v) = false ∧
             cr (pathStr v) = false ∧ m = cannotCreateMsg (pathStr v))))))) ∧
    ((validate_config conf de cr).errors = [] → get_config conf de cr = .ok conf) ∧
    ((validate_config conf de cr).errors ≠ [] →
      get_config conf de cr = .error (validate_config conf de cr).errors) := by
  refine ⟨?_, ?_, ?_⟩
  · intro m
    have : (validate_config conf de cr).errors =
        colorsErrors conf.colors ++ (filesErrors conf.files de cr).1 := rfl
    rw [this, List.mem_append, mem_colorsErrors_iff, mem_filesErrors_iff]
  · intro h
    have : (validate_config conf de cr).errors.isEmpty = true := by rw [h]; rfl
    simp [get_config, this]
  · intro h
    have : (validate_config conf de cr).errors.isEmpty = false := by
      cases he : (validate_config conf de cr).errors with
      | nil => exact absurd he h
      | cons a l => rfl
    simp [get_config, this]

/-- A configuration with three independent violations: missing
`colors.quality`, missing `colors.count`, empty `files.templates`. -/
def confC9 : Config := ⟨some ⟨none, none⟩, some ⟨some (.list []), none⟩⟩

theorem claim9_witness :
    get_config confC9 (fun _ => true) (fun _ => true) =
      .error (validate_config confC9 (fun _ => true) (fun _ => true)).errors :=
  (claim9_exhaustive_validation confC9 (fun _ => true) (fun _ => true)).2.2 (by decide)

end ThemeBuilder
